import Mathlib

/-!
Verification of src/ipmitool/src/plugins/lanplus/lanplus_crypt_impl.c

Shallow embedding conventions.

Bytes are modelled as Nat values; writes into a uint8_t buffer truncate
with % 256.  Machine counters (uint32_t) are modelled as Nat with % 2^32
where overflow could matter.

External OpenSSL functions are modelled by their documented behaviour:

- RAND_load_file(path, n) returns the number of bytes it read and mixed
  into the PRNG state (0 when the device could not be opened in the
  OpenSSL generation this source targets).  The model passes that return
  value in as the argument of lanplus_seed_prng.

- HMAC(EVP_sha1(), key, key_len, d, n, md, md_len) writes the digest and
  stores its byte length in *md_len.  The model passes the external
  HMAC-SHA1 computation in as a function argument hmacSha1; the wrapper
  logic under verification is independent of the digest internals.

- EVP encryption contexts: the source calls EVP_EncryptInit_ex /
  EVP_EncryptUpdate / EVP_EncryptFinal_ex (and the Decrypt versions)
  exactly once each, and never calls EVP_CIPHER_CTX_set_padding, so the
  OpenSSL default PKCS#7 padding stays ENABLED.  With an empty context
  buffer and block-aligned input that gives, per the OpenSSL sources and
  documentation:
  * EncryptUpdate(in, n): writes the n CBC-encrypted bytes, outl = n.
  * EncryptFinal_ex: pads with a whole block of 16 bytes of value 16,
    encrypts it chained after the last ciphertext block, outl = 16.
  * DecryptUpdate(in, n): decrypts all n bytes but withholds the final
    plaintext block for the padding check, writing n - 16 bytes,
    outl = n - 16.
  * DecryptFinal_ex: reads the last byte p of the withheld block; fails
    if p = 0 or p > 16 or the last p bytes of the block are not all p;
    on success copies the first 16 - p bytes of the block, outl = 16 - p.
  The underlying AES-128 block permutation itself is external; the
  embedding is parameterised by the per-block functions E and D
  (key, 16-byte block -> 16-byte block).

Each lanplus_* definition below mirrors its C function line by line; an
oracle argument of type LibOutcome stands for the success/failure result
of the external update/final calls, so that the error paths of the C code
are reachable in the model.
-/

/-- Byte-wise xor of two byte lists (pointwise, truncating to the shorter
list; all uses are on 16-byte blocks). -/
def xorBytes (a b : List Nat) : List Nat :=
  List.zipWith Nat.xor a b

/-- CBC encryption over an abstract block function, fuel-structured so it
computes by kernel reduction.  Each step encrypts the xor of the next
16-byte chunk with the previous ciphertext block (initially the IV). -/
def cbcEncryptAux (E : List Nat → List Nat → List Nat) (key : List Nat) :
    Nat → List Nat → List Nat → List Nat
  | 0, _, _ => []
  | fuel + 1, prev, bytes =>
    if bytes = [] then []
    else
      let c := E key (xorBytes (bytes.take 16) prev)
      c ++ cbcEncryptAux E key fuel c (bytes.drop 16)

/-- CBC encryption of a byte list with initial chaining value iv. -/
def cbcEncrypt (E : List Nat → List Nat → List Nat)
    (key iv bytes : List Nat) : List Nat :=
  cbcEncryptAux E key bytes.length iv bytes

/-- CBC decryption over an abstract block function: each plaintext block
is the block decryption of a ciphertext chunk xored with the previous
ciphertext block (initially the IV). -/
def cbcDecryptAux (D : List Nat → List Nat → List Nat) (key : List Nat) :
    Nat → List Nat → List Nat → List Nat
  | 0, _, _ => []
  | fuel + 1, prev, ct =>
    if ct = [] then []
    else
      let c := ct.take 16
      xorBytes (D key c) prev ++ cbcDecryptAux D key fuel c (ct.drop 16)

/-- CBC decryption of a ciphertext byte list with initial chaining value
iv. -/
def cbcDecrypt (D : List Nat → List Nat → List Nat)
    (key iv ct : List Nat) : List Nat :=
  cbcDecryptAux D key ct.length iv ct

/-- Modelled from the spec: the AES-CBC-128 block size constant from
ipmi_constants.h (header not under src); the spec fixes the cipher block
size at 16 bytes. -/
def IPMI_CRYPT_AES_CBC_128_BLOCK_SIZE : Nat := 16

/-- Modelled from the spec: the RAKP authentication algorithm selector
tag IPMI_AUTH_RAKP_HMAC_SHA1 from ipmi_constants.h (header not under
src); the spec treats selectors as enumerated tags, the IPMI value is 1. -/
def IPMI_AUTH_RAKP_HMAC_SHA1 : Nat := 1

/-- Modelled from the spec: the packet integrity algorithm selector tag
IPMI_INTEGRITY_HMAC_SHA1_96 from ipmi_constants.h (header not under
src); the spec treats selectors as enumerated tags, the IPMI value is 1. -/
def IPMI_INTEGRITY_HMAC_SHA1_96 : Nat := 1

/-- Success or failure reported by the external EVP update/final calls
inside one encrypt/decrypt wrapper call. -/
inductive LibOutcome
  | ok
  | updateFail
  | finalFail
deriving DecidableEq

/-- Observable outcome of one call to an encrypt/decrypt wrapper.
out is the sequence of bytes written into the output buffer,
bytesWritten the final value stored through the bytes_written pointer.
succeeded records that the call took neither an error return nor the
assert; cleaned records whether EVP_CIPHER_CTX_cleanup was executed;
aborted records that assert fired (the C function returns void, so out
and bytesWritten are its only caller-visible effects). -/
structure CipherResult where
  out : List Nat
  bytesWritten : Nat
  succeeded : Bool
  cleaned : Bool
  aborted : Bool
deriving DecidableEq

/-- lanplus_seed_prng (lines 58-64): returns 1 when RAND_load_file
reported 0 bytes, otherwise 0.  The argument loaded is the return value
of the external RAND_load_file call (number of entropy bytes read; 0
when the device was unavailable). -/
def lanplus_seed_prng (loaded : Nat) : Nat :=
  if loaded = 0 then 1 else 0

/-- lanplus_rand (lines 80-98): IPMI_LANPLUS_FAKE_RAND is defined
unconditionally at line 83, so the deterministic fill is the only
compiled branch.  Returns the buffer contents and the status 0; the
store into a uint8_t cell truncates 0x70 lor i to a byte. -/
def lanplus_rand (num_bytes : Nat) : List Nat × Nat :=
  (((List.range num_bytes).map fun i => Nat.lor 0x70 i % 256), 0)

/-- lanplus_HMAC (lines 115-138): for the two supported selector tags it
returns the external HMAC-SHA1 digest together with the stored md_len
(the digest length); any other tag prints a message and hits assert(0),
modelled as none.  hmacSha1 is the external HMAC(EVP_sha1(), ...)
computation (key, data -> digest bytes). -/
def lanplus_HMAC (hmacSha1 : List Nat → List Nat → List Nat)
    (mac : Nat) (key d : List Nat) : Option (List Nat × Nat) :=
  if mac = IPMI_AUTH_RAKP_HMAC_SHA1 ∨ mac = IPMI_INTEGRITY_HMAC_SHA1_96 then
    some (hmacSha1 key d, (hmacSha1 key d).length)
  else
    none

/-- lanplus_encrypt_aes_cbc_128 (lines 155-211).  E is the external
AES-128 block encryption (key, block -> block); lib reports the outcome
of the external EVP calls.  Path by path against the C source:
line 168 sets bytes_written to 0; lines 170-171 return on empty input
without cleanup; line 186 asserts block alignment; lines 189-194 return
with bytes_written reset on update failure, without cleanup; lines
199-203 likewise on final failure (the update output already sits in the
buffer); lines 205-209 add the final outl (16, the PKCS pad block, since
padding is never disabled) and clean the context.  The uint32_t counter
wraps modulo 2^32. -/
def lanplus_encrypt_aes_cbc_128 (E : List Nat → List Nat → List Nat)
    (iv key input : List Nat) (input_length : Nat) (lib : LibOutcome) :
    CipherResult :=
  if input_length = 0 then
    { out := [], bytesWritten := 0, succeeded := true,
      cleaned := false, aborted := false }
  else if input_length % IPMI_CRYPT_AES_CBC_128_BLOCK_SIZE ≠ 0 then
    { out := [], bytesWritten := 0, succeeded := false,
      cleaned := false, aborted := true }
  else
    match lib with
    | .updateFail =>
      { out := [], bytesWritten := 0, succeeded := false,
        cleaned := false, aborted := false }
    | .finalFail =>
      { out := cbcEncrypt E key iv (input.take input_length),
        bytesWritten := 0, succeeded := false,
        cleaned := false, aborted := false }
    | .ok =>
      { out := cbcEncrypt E key iv
          (input.take input_length ++ List.replicate 16 16),
        bytesWritten := (input_length + 16) % 2 ^ 32, succeeded := true,
        cleaned := true, aborted := false }

/-- lanplus_decrypt_aes_cbc_128 (lines 229-296).  D is the external
AES-128 block decryption; lib reports the outcome of the external EVP
calls.  Path by path against the C source: line 250 sets bytes_written
to 0; lines 252-253 return on empty input without cleanup; line 260
asserts block alignment; lines 263-269 return with bytes_written reset
on update failure, without cleanup; lines 274-282 likewise when
DecryptFinal_ex fails, which (padding never being disabled) happens
exactly when the withheld final plaintext block does not end in valid
PKCS padding, or when the oracle forces a failure; lines 284-288 on
success copy the unpadded remainder of the withheld block, add its
length to bytes_written and clean the context. -/
def lanplus_decrypt_aes_cbc_128 (D : List Nat → List Nat → List Nat)
    (iv key input : List Nat) (input_length : Nat) (lib : LibOutcome) :
    CipherResult :=
  if input_length = 0 then
    { out := [], bytesWritten := 0, succeeded := true,
      cleaned := false, aborted := false }
  else if input_length % IPMI_CRYPT_AES_CBC_128_BLOCK_SIZE ≠ 0 then
    { out := [], bytesWritten := 0, succeeded := false,
      cleaned := false, aborted := true }
  else
    match lib with
    | .updateFail =>
      { out := [], bytesWritten := 0, succeeded := false,
        cleaned := false, aborted := false }
    | lib2 =>
      let P := cbcDecrypt D key iv (input.take input_length)
      let upd := P.take (input_length - 16)
      let finalBlock := P.drop (input_length - 16)
      let p := finalBlock.getD 15 0
      if lib2 = .finalFail ∨ p = 0 ∨ 16 < p ∨
          finalBlock.drop (16 - p) ≠ List.replicate p p then
        { out := upd, bytesWritten := 0, succeeded := false,
          cleaned := false, aborted := false }
      else
        { out := upd ++ finalBlock.take (16 - p),
          bytesWritten := input_length - p, succeeded := true,
          cleaned := true, aborted := false }

/-- Concrete length-preserving, self-inverse stand-in for the external
block cipher parameter, used to evaluate the wrappers at concrete
inputs; the wrapper logic under verification is independent of the
block permutation. -/
def idBlockCipher : List Nat → List Nat → List Nat :=
  fun _ b => b

/-- C8: a call with input_length = 0 succeeds, writes nothing, sets
bytes_written to 0, does not abort, and its result does not depend on
the input buffer contents (the zero-length path never reads the input),
for both the encrypt and the decrypt wrapper. -/
theorem c8_zero_length_success (E D : List Nat → List Nat → List Nat)
    (iv key input input2 : List Nat) (libE libD : LibOutcome) :
    lanplus_encrypt_aes_cbc_128 E iv key input 0 libE =
      { out := [], bytesWritten := 0, succeeded := true,
        cleaned := false, aborted := false } ∧
    lanplus_encrypt_aes_cbc_128 E iv key input 0 libE =
      lanplus_encrypt_aes_cbc_128 E iv key input2 0 libE ∧
    lanplus_decrypt_aes_cbc_128 D iv key input 0 libD =
      { out := [], bytesWritten := 0, succeeded := true,
        cleaned := false, aborted := false } ∧
    lanplus_decrypt_aes_cbc_128 D iv key input 0 libD =
      lanplus_decrypt_aes_cbc_128 D iv key input2 0 libD :=
  ⟨rfl, rfl, rfl, rfl⟩

/-- C9: for any selector tag other than the two supported HMAC-SHA1
variants, lanplus_HMAC aborts (assert(0)) and returns no MAC value. -/
theorem c9_unsupported_mac_aborts
    (hmacSha1 : List Nat → List Nat → List Nat) (mac : Nat)
    (key d : List Nat)
    (h1 : mac ≠ IPMI_AUTH_RAKP_HMAC_SHA1)
    (h2 : mac ≠ IPMI_INTEGRITY_HMAC_SHA1_96) :
    lanplus_HMAC hmacSha1 mac key d = none := by
  simp [lanplus_HMAC, h1, h2]

/-- Witness for C9 at the concrete unsupported selector 2
(IPMI_AUTH_RAKP_HMAC_MD5 in the IPMI numbering). -/
theorem c9_unsupported_mac_aborts_witness :
    lanplus_HMAC (fun _ _ => List.replicate 20 0) 2 [] [] = none :=
  c9_unsupported_mac_aborts (fun _ _ => List.replicate 20 0) 2 [] []
    (by decide) (by decide)

/-- C10: for any supported selector tag, lanplus_HMAC returns exactly
the external HMAC-SHA1 digest of the key/data pair with md_len equal to
the digest size 20; the result is a pure function of the arguments, so
two runs on identical inputs yield identical bytes. -/
theorem c10_hmac_deterministic_digest_len
    (hmacSha1 : List Nat → List Nat → List Nat)
    (hlen : ∀ k x, (hmacSha1 k x).length = 20) (mac : Nat)
    (key d : List Nat)
    (hsup : mac = IPMI_AUTH_RAKP_HMAC_SHA1 ∨
      mac = IPMI_INTEGRITY_HMAC_SHA1_96) :
    lanplus_HMAC hmacSha1 mac key d = some (hmacSha1 key d, 20) := by
  simp [lanplus_HMAC, hsup, hlen]

/-- Witness for C10 at selector 1 with a concrete 20-byte digest
function and zero-length data. -/
theorem c10_hmac_deterministic_digest_len_witness :
    lanplus_HMAC (fun _ _ => List.replicate 20 7) 1 [1, 2] [] =
      some (List.replicate 20 7, 20) :=
  c10_hmac_deterministic_digest_len (fun _ _ => List.replicate 20 7)
    (fun _ _ => by simp) 1 [1, 2] [] (Or.inl rfl)

/-- C1 (code bug): the source never disables EVP padding, so a
successful encrypt call appends a whole PKCS pad block.  At the spec
scenario (16 zero-byte iv and key, 16 bytes of 0x41) the encrypt wrapper
succeeds with bytes_written = 32 and a 32-byte ciphertext, not the
input length 16; and a successful decrypt call strips padding, here
returning bytes_written = 0 for a 16-byte ciphertext whose plaintext is
one full padding block. -/
theorem c1_success_length_not_preserved :
    ((lanplus_encrypt_aes_cbc_128 idBlockCipher (List.replicate 16 0)
        (List.replicate 16 0) (List.replicate 16 0x41) 16 .ok).succeeded
        = true ∧
      (lanplus_encrypt_aes_cbc_128 idBlockCipher (List.replicate 16 0)
        (List.replicate 16 0) (List.replicate 16 0x41) 16
        .ok).bytesWritten = 32 ∧
      (lanplus_encrypt_aes_cbc_128 idBlockCipher (List.replicate 16 0)
        (List.replicate 16 0) (List.replicate 16 0x41) 16
        .ok).out.length = 32) ∧
    ((lanplus_decrypt_aes_cbc_128 idBlockCipher (List.replicate 16 0)
        (List.replicate 16 0) (List.replicate 16 16) 16 .ok).succeeded
        = true ∧
      (lanplus_decrypt_aes_cbc_128 idBlockCipher (List.replicate 16 0)
        (List.replicate 16 0) (List.replicate 16 16) 16
        .ok).bytesWritten = 0) := by
  decide

/-- C2 (code bug): at the spec scenario, decrypting the encrypt output
does reproduce the plaintext and decrypt reports bytes_written = 16, but
the encrypt call reports bytes_written = 32, not the input length. -/
theorem c2_roundtrip_value_ok_but_lengths_differ :
    (lanplus_decrypt_aes_cbc_128 idBlockCipher (List.replicate 16 0)
        (List.replicate 16 0)
        (lanplus_encrypt_aes_cbc_128 idBlockCipher (List.replicate 16 0)
          (List.replicate 16 0) (List.replicate 16 0x41) 16 .ok).out
        (lanplus_encrypt_aes_cbc_128 idBlockCipher (List.replicate 16 0)
          (List.replicate 16 0) (List.replicate 16 0x41) 16
          .ok).out.length .ok).out = List.replicate 16 0x41 ∧
    (lanplus_decrypt_aes_cbc_128 idBlockCipher (List.replicate 16 0)
        (List.replicate 16 0)
        (lanplus_encrypt_aes_cbc_128 idBlockCipher (List.replicate 16 0)
          (List.replicate 16 0) (List.replicate 16 0x41) 16 .ok).out
        (lanplus_encrypt_aes_cbc_128 idBlockCipher (List.replicate 16 0)
          (List.replicate 16 0) (List.replicate 16 0x41) 16
          .ok).out.length .ok).bytesWritten = 16 ∧
    (lanplus_encrypt_aes_cbc_128 idBlockCipher (List.replicate 16 0)
        (List.replicate 16 0) (List.replicate 16 0x41) 16
        .ok).bytesWritten = 32 := by
  decide

/-- C3 counterexample: the store into a uint8_t buffer cell truncates,
so at length 257 the byte at index 256 is 0x70, not 0x70 lor 256. -/
theorem c3_fake_rand_truncates_at_256 :
    (lanplus_rand 257).1.getD 256 0 ≠ Nat.lor 0x70 256 := by
  decide

/-- C3 amended: lanplus_rand always returns status 0 and fills the
buffer with (0x70 lor i) mod 256 at every index i below the length
(equal to 0x70 lor i whenever i < 256). -/
theorem c3_fake_rand_fill_mod256 (num_bytes i : Nat)
    (hi : i < num_bytes) :
    (lanplus_rand num_bytes).2 = 0 ∧
    (lanplus_rand num_bytes).1.length = num_bytes ∧
    (lanplus_rand num_bytes).1.getD i 0 = Nat.lor 0x70 i % 256 := by
  refine ⟨rfl, by simp [lanplus_rand], ?_⟩
  simp [lanplus_rand, List.getD, List.getElem?_map, List.getElem?_range,
    hi]

/-- Witness for C3 amended at length 16, index 3. -/
theorem c3_fake_rand_fill_mod256_witness :
    (lanplus_rand 16).2 = 0 ∧ (lanplus_rand 16).1.length = 16 ∧
    (lanplus_rand 16).1.getD 3 0 = Nat.lor 0x70 3 % 256 :=
  c3_fake_rand_fill_mod256 16 3 (by decide)

/-- C4 (code bug): EVP_CIPHER_CTX_cleanup runs only on the full success
path.  The zero-length early return, the update-failure return and the
final-failure return of both wrappers all leave the context uncleaned;
only the successful calls clean it. -/
theorem c4_ctx_released_only_on_success :
    (lanplus_encrypt_aes_cbc_128 idBlockCipher (List.replicate 16 0)
      (List.replicate 16 0) [] 0 .ok).cleaned = false ∧
    (lanplus_decrypt_aes_cbc_128 idBlockCipher (List.replicate 16 0)
      (List.replicate 16 0) [] 0 .ok).cleaned = false ∧
    (lanplus_encrypt_aes_cbc_128 idBlockCipher (List.replicate 16 0)
      (List.replicate 16 0) (List.replicate 16 0x41) 16
      .updateFail).cleaned = false ∧
    (lanplus_encrypt_aes_cbc_128 idBlockCipher (List.replicate 16 0)
      (List.replicate 16 0) (List.replicate 16 0x41) 16
      .finalFail).cleaned = false ∧
    (lanplus_decrypt_aes_cbc_128 idBlockCipher (List.replicate 16 0)
      (List.replicate 16 0) (List.replicate 16 0x41) 16
      .updateFail).cleaned = false ∧
    (lanplus_decrypt_aes_cbc_128 idBlockCipher (List.replicate 16 0)
      (List.replicate 16 0) (List.replicate 16 0) 16 .ok).cleaned
      = false ∧
    (lanplus_encrypt_aes_cbc_128 idBlockCipher (List.replicate 16 0)
      (List.replicate 16 0) (List.replicate 16 0x41) 16 .ok).cleaned
      = true := by
  decide

/-- C5 counterexample: the wrappers return void, so bytes_written and
the buffer are the only signal.  A successful decrypt of a ciphertext
whose plaintext is one full padding block and a failing decrypt (bad
padding, DecryptFinal_ex reports failure) produce identical observable
results: bytes_written = 0 and an empty output, so the failure is not
distinguishable from success by the caller. -/
theorem c5_failure_indistinguishable_from_success :
    (lanplus_decrypt_aes_cbc_128 idBlockCipher (List.replicate 16 0)
      (List.replicate 16 0) (List.replicate 16 16) 16 .ok).succeeded
      = true ∧
    (lanplus_decrypt_aes_cbc_128 idBlockCipher (List.replicate 16 0)
      (List.replicate 16 0) (List.replicate 16 0) 16 .ok).succeeded
      = false ∧
    (lanplus_decrypt_aes_cbc_128 idBlockCipher (List.replicate 16 0)
      (List.replicate 16 0) (List.replicate 16 16) 16
      .ok).bytesWritten =
    (lanplus_decrypt_aes_cbc_128 idBlockCipher (List.replicate 16 0)
      (List.replicate 16 0) (List.replicate 16 0) 16
      .ok).bytesWritten ∧
    (lanplus_decrypt_aes_cbc_128 idBlockCipher (List.replicate 16 0)
      (List.replicate 16 0) (List.replicate 16 16) 16 .ok).out =
    (lanplus_decrypt_aes_cbc_128 idBlockCipher (List.replicate 16 0)
      (List.replicate 16 0) (List.replicate 16 0) 16 .ok).out := by
  decide

/-- C5 amended: on any external-library failure (update or finalize) in
a call with nonzero input, bytes_written is reset to 0 and the success
branch is never reached, so no bytes are exposed as valid; the failure
signal is only the bytes_written value, which does not always
distinguish failure from success for decrypt. -/
theorem c5_failure_resets_bytes_written
    (E D : List Nat → List Nat → List Nat) (iv key input : List Nat)
    (n : Nat) (lib : LibOutcome) (hn : n ≠ 0)
    (hlib : lib ≠ LibOutcome.ok) :
    ((lanplus_encrypt_aes_cbc_128 E iv key input n lib).bytesWritten
      = 0 ∧
     (lanplus_encrypt_aes_cbc_128 E iv key input n lib).succeeded
      = false) ∧
    ((lanplus_decrypt_aes_cbc_128 D iv key input n lib).bytesWritten
      = 0 ∧
     (lanplus_decrypt_aes_cbc_128 D iv key input n lib).succeeded
      = false) := by
  unfold lanplus_encrypt_aes_cbc_128 lanplus_decrypt_aes_cbc_128
  cases lib with
  | ok => exact absurd rfl hlib
  | updateFail =>
    by_cases ha : n % IPMI_CRYPT_AES_CBC_128_BLOCK_SIZE = 0 <;>
      simp [hn, ha]
  | finalFail =>
    by_cases ha : n % IPMI_CRYPT_AES_CBC_128_BLOCK_SIZE = 0 <;>
      simp [hn, ha]

/-- Witness for C5 amended at a concrete update failure with a 16-byte
input. -/
theorem c5_failure_resets_bytes_written_witness :
    ((lanplus_encrypt_aes_cbc_128 idBlockCipher (List.replicate 16 0)
      (List.replicate 16 0) (List.replicate 16 0x41) 16
      .updateFail).bytesWritten = 0 ∧
     (lanplus_encrypt_aes_cbc_128 idBlockCipher (List.replicate 16 0)
      (List.replicate 16 0) (List.replicate 16 0x41) 16
      .updateFail).succeeded = false) ∧
    ((lanplus_decrypt_aes_cbc_128 idBlockCipher (List.replicate 16 0)
      (List.replicate 16 0) (List.replicate 16 0x41) 16
      .updateFail).bytesWritten = 0 ∧
     (lanplus_decrypt_aes_cbc_128 idBlockCipher (List.replicate 16 0)
      (List.replicate 16 0) (List.replicate 16 0x41) 16
      .updateFail).succeeded = false) :=
  c5_failure_resets_bytes_written idBlockCipher idBlockCipher
    (List.replicate 16 0) (List.replicate 16 0) (List.replicate 16 0x41)
    16 .updateFail (by decide) (by decide)

/-- C6 counterexample: with 16 bytes requested and the external
RAND_load_file reporting 8 usable bytes, the claim demands failure (8 is
fewer than requested) but lanplus_seed_prng returns 0 (success). -/
theorem c6_short_read_reports_success :
    ¬ (lanplus_seed_prng 8 = 1 ↔ (8 = 0 ∨ 8 < 16)) := by
  decide

/-- C6 amended: lanplus_seed_prng returns failure (1) exactly when the
external RAND_load_file reported zero usable bytes, and success (0)
otherwise, even when fewer bytes than requested were supplied. -/
theorem c6_seed_fails_iff_zero_bytes (loaded : Nat) :
    (lanplus_seed_prng loaded = 1 ↔ loaded = 0) ∧
    (lanplus_seed_prng loaded = 0 ↔ loaded ≠ 0) := by
  unfold lanplus_seed_prng
  by_cases h : loaded = 0 <;> simp [h]

/-- C7: a call whose input_length is neither zero nor a multiple of 16
hits assert before any transformation: both wrappers abort having
written nothing, with bytes_written still 0 and nothing padded; and
whenever input_length is block-aligned (zero included) the assert never
fires. -/
theorem c7_misaligned_asserts (E D : List Nat → List Nat → List Nat)
    (iv key input : List Nat) (n : Nat) (libE libD : LibOutcome) :
    (n % 16 ≠ 0 →
      (lanplus_encrypt_aes_cbc_128 E iv key input n libE).aborted
        = true ∧
      (lanplus_encrypt_aes_cbc_128 E iv key input n libE).out = [] ∧
      (lanplus_encrypt_aes_cbc_128 E iv key input n libE).bytesWritten
        = 0 ∧
      (lanplus_decrypt_aes_cbc_128 D iv key input n libD).aborted
        = true ∧
      (lanplus_decrypt_aes_cbc_128 D iv key input n libD).out = [] ∧
      (lanplus_decrypt_aes_cbc_128 D iv key input n libD).bytesWritten
        = 0) ∧
    (n % 16 = 0 →
      (lanplus_encrypt_aes_cbc_128 E iv key input n libE).aborted
        = false ∧
      (lanplus_decrypt_aes_cbc_128 D iv key input n libD).aborted
        = false) := by
  unfold lanplus_encrypt_aes_cbc_128 lanplus_decrypt_aes_cbc_128
  constructor
  · intro h
    have hn : n ≠ 0 := by
      intro h0
      exact h (by simp [h0])
    simp [hn, IPMI_CRYPT_AES_CBC_128_BLOCK_SIZE, h]
  · intro h
    by_cases hn : n = 0
    · simp [hn]
    · cases libE <;> cases libD <;>
        simp [hn, IPMI_CRYPT_AES_CBC_128_BLOCK_SIZE, h] <;>
        split <;> simp

/-- Witness for C7: the misaligned part at input_length = 17, the
aligned part at input_length = 16, both with the concrete stand-in
cipher. -/
theorem c7_misaligned_asserts_witness :
    ((lanplus_encrypt_aes_cbc_128 idBlockCipher (List.replicate 16 0)
        (List.replicate 16 0) (List.replicate 17 0x41) 17 .ok).aborted
        = true ∧
      (lanplus_encrypt_aes_cbc_128 idBlockCipher (List.replicate 16 0)
        (List.replicate 16 0) (List.replicate 17 0x41) 17 .ok).out
        = [] ∧
      (lanplus_encrypt_aes_cbc_128 idBlockCipher (List.replicate 16 0)
        (List.replicate 16 0) (List.replicate 17 0x41) 17
        .ok).bytesWritten = 0 ∧
      (lanplus_decrypt_aes_cbc_128 idBlockCipher (List.replicate 16 0)
        (List.replicate 16 0) (List.replicate 17 0x41) 17 .ok).aborted
        = true ∧
      (lanplus_decrypt_aes_cbc_128 idBlockCipher (List.replicate 16 0)
        (List.replicate 16 0) (List.replicate 17 0x41) 17 .ok).out
        = [] ∧
      (lanplus_decrypt_aes_cbc_128 idBlockCipher (List.replicate 16 0)
        (List.replicate 16 0) (List.replicate 17 0x41) 17
        .ok).bytesWritten = 0) ∧
    ((lanplus_encrypt_aes_cbc_128 idBlockCipher (List.replicate 16 0)
        (List.replicate 16 0) (List.replicate 16 0x41) 16 .ok).aborted
        = false ∧
      (lanplus_decrypt_aes_cbc_128 idBlockCipher (List.replicate 16 0)
        (List.replicate 16 0) (List.replicate 16 0x41) 16 .ok).aborted
        = false) :=
  ⟨(c7_misaligned_asserts idBlockCipher idBlockCipher
      (List.replicate 16 0) (List.replicate 16 0)
      (List.replicate 17 0x41) 17 .ok .ok).1 (by decide),
   (c7_misaligned_asserts idBlockCipher idBlockCipher
      (List.replicate 16 0) (List.replicate 16 0)
      (List.replicate 16 0x41) 16 .ok .ok).2 (by decide)⟩
